import Mathlib

/-!
Verification development for the polymarket-data-starter snapshot pipeline.

The Python sources (`src/models.py`, `src/gamma_client.py`, `src/recorder.py`)
are shallowly embedded below.  Modelling conventions:

* Python `float` values are modelled as exact rationals (`ℚ`); `round(x, 6)`
  is modelled as round-half-to-even at six decimal places, CPython's
  documented behaviour.
* `datetime` values are modelled by `PyDateTime`: civil components plus an
  optional UTC offset in minutes (`none` models a naive datetime, `some k`
  an aware one).  `datetime.utcfromtimestamp` and the subset of
  `datetime.fromisoformat` exercised by this code base are implemented
  over that representation.
* `datetime.utcnow()` calls are modelled by passing the captured instant
  (`now` / `ts`) as an explicit argument, matching the source's
  capture-once-per-batch usage.
* The SQLite layer is modelled as in-memory append-only tables inside an
  optional connection (`RecorderState`); `Except SaveError` models the
  raised `RuntimeError` precondition failure as distinct from storage
  errors.
* Loosely-typed WebSocket payload fields are modelled by the raw-value
  type `BVal` with Python truthiness and `float()` coercion (`Option`
  models a raised `ValueError`/`TypeError`).
-/

/-- Rational addition computed through `Rat.divInt` so that it evaluates
inside the kernel; `qAdd_eq` identifies it with `+` on `ℚ`. -/
def qAdd (a b : ℚ) : ℚ :=
  Rat.divInt (a.num * (b.den : ℤ) + b.num * (a.den : ℤ)) ((a.den : ℤ) * (b.den : ℤ))

/-- Rational subtraction computed through `Rat.divInt`; `qSub_eq`
identifies it with `-` on `ℚ`. -/
def qSub (a b : ℚ) : ℚ :=
  Rat.divInt (a.num * (b.den : ℤ) - b.num * (a.den : ℤ)) ((a.den : ℤ) * (b.den : ℤ))

/-- Rational multiplication computed through `Rat.divInt`; `qMul_eq`
identifies it with `*` on `ℚ`. -/
def qMul (a b : ℚ) : ℚ :=
  Rat.divInt (a.num * b.num) ((a.den : ℤ) * (b.den : ℤ))

/-- Rational negation computed through `Rat.divInt`; `qNeg_eq` identifies
it with negation on `ℚ`. -/
def qNeg (a : ℚ) : ℚ := Rat.divInt (-a.num) (a.den : ℤ)

/-- Python `round` to an integer: round half to even (models CPython's
`round` at an exact tie, and the exact-rational idealization elsewhere).
Written in integer arithmetic on the numerator and denominator so that it
evaluates inside the kernel: with `f = ⌊q⌋` and `rem = num - f * den`, the
fractional part `rem / den` is compared against `1 / 2` by comparing
`2 * rem` against `den`. -/
def pyRoundHalfEven (q : ℚ) : ℤ :=
  let n := q.num
  let d : ℤ := (q.den : ℤ)
  let f := n.fdiv d
  let rem := n - f * d
  if 2 * rem < d then f
  else if d < 2 * rem then f + 1
  else if f % 2 = 0 then f else f + 1

/-- Python `round(x, 6)` on the exact-rational model of floats. -/
def round6 (q : ℚ) : ℚ :=
  Rat.divInt (pyRoundHalfEven (qMul q 1000000)) 1000000

/-- Model of a CPython `datetime.datetime` value: civil components plus an
optional UTC offset in minutes.  `utcoffset = none` models a naive datetime,
`utcoffset = some k` an aware one — two datetimes with equal instants but
different awareness are distinct values, exactly as in Python. -/
structure PyDateTime where
  year : ℤ
  month : ℤ
  day : ℤ
  hour : ℤ
  minute : ℤ
  second : ℤ
  microsecond : ℤ
  utcoffset : Option ℤ
deriving DecidableEq

/-- Microseconds per day. -/
def usPerDay : ℤ := 86400000000

/-- Civil date from a count of days since 1970-01-01 (Gregorian, proleptic);
the standard era-based algorithm with truncating division. -/
def civilFromDays (z0 : ℤ) : ℤ × ℤ × ℤ :=
  let z := z0 + 719468
  let era := (if 0 ≤ z then z else z - 146096) / 146097
  let doe := z - era * 146097
  let yoe := (doe - doe / 1460 + doe / 36524 - doe / 146096) / 365
  let y := yoe + era * 400
  let doy := doe - (365 * yoe + yoe / 4 - yoe / 100)
  let mp := (5 * doy + 2) / 153
  let d := doy - (153 * mp + 2) / 5 + 1
  let m := mp + (if mp < 10 then 3 else -9)
  (y + (if m ≤ 2 then 1 else 0), m, d)

/-- Days since 1970-01-01 of a civil date (inverse direction of
`civilFromDays`). -/
def daysFromCivil (y0 m d : ℤ) : ℤ :=
  let y := y0 - (if m ≤ 2 then 1 else 0)
  let era := (if 0 ≤ y then y else y - 399) / 400
  let yoe := y - era * 400
  let doy := (153 * (m + (if 2 < m then -3 else 9)) + 2) / 5 + d - 1
  let doe := yoe * 365 + yoe / 4 - yoe / 100 + doy
  era * 146097 + doe - 719468

/-- Model of `datetime.utcfromtimestamp(ms / 1000)` as used by
`DataRecorder._parse_ws_timestamp` (recorder.py line 502): a NAIVE UTC
datetime (no tzinfo) at the given epoch milliseconds, microseconds rounded
half-to-even as CPython does. -/
def utcfromtimestampMs (ms : ℚ) : PyDateTime :=
  let totalUs := pyRoundHalfEven (qMul ms 1000)
  let day := totalUs.fdiv usPerDay
  let rem := totalUs.fmod usPerDay
  let ymd := civilFromDays day
  { year := ymd.1
    month := ymd.2.1
    day := ymd.2.2
    hour := rem / 3600000000
    minute := rem / 60000000 % 60
    second := rem / 1000000 % 60
    microsecond := rem % 1000000
    utcoffset := none }

/-- Epoch microseconds denoted by a `PyDateTime`, reading a naive value as
UTC; this is the "instant" a datetime stands for. -/
def toEpochUs (d : PyDateTime) : ℤ :=
  daysFromCivil d.year d.month d.day * usPerDay
    + d.hour * 3600000000 + d.minute * 60000000 + d.second * 1000000
    + d.microsecond - (d.utcoffset.getD 0) * 60000000

/-- Numeric value of a decimal digit character. -/
def digitVal (c : Char) : ℕ := c.toNat - 48

/-- Read exactly `n` decimal digits from the front of `cs`, returning their
value and the rest of the input; fails if a non-digit or end of input is
hit first. -/
def readDigits : ℕ → ℕ → List Char → Option (ℕ × List Char)
  | 0, acc, cs => some (acc, cs)
  | k + 1, acc, cs =>
    match cs with
    | [] => none
    | c :: rest =>
      if c.isDigit then readDigits k (acc * 10 + digitVal c) rest else none

/-- Consume one expected character. -/
def expectChar (c : Char) : List Char → Option (List Char)
  | [] => none
  | x :: rest => if x = c then some rest else none

/-- Gregorian leap-year test (as Python's `calendar`/`datetime` use). -/
def isLeap (y : ℤ) : Bool := (y % 4 == 0 && y % 100 != 0) || y % 400 == 0

/-- Number of days in a month, for `fromisoformat` date validation. -/
def daysInMonth (y m : ℤ) : ℤ :=
  if m = 2 then (if isLeap y then 29 else 28)
  else if m = 4 ∨ m = 6 ∨ m = 9 ∨ m = 11 then 30
  else 31

/-- Read an optional fractional-seconds part `.d{1..6}` and scale it to
microseconds; returns 0 microseconds when no fraction is present. -/
def readFraction : List Char → Option (ℕ × List Char)
  | '.' :: rest =>
    let ds := rest.takeWhile Char.isDigit
    let rest2 := rest.dropWhile Char.isDigit
    if 1 ≤ ds.length ∧ ds.length ≤ 6 then
      some (ds.foldl (fun a c => a * 10 + digitVal c) 0 * 10 ^ (6 - ds.length), rest2)
    else none
  | cs => some (0, cs)

/-- Read the optional trailing UTC-offset part `±HH:MM` (which must end the
string), returning the offset in minutes; `none` offset when absent. -/
def readOffset : List Char → Option (Option ℤ)
  | [] => some none
  | c :: rest =>
    if c = '+' ∨ c = '-' then
      match readDigits 2 0 rest with
      | none => none
      | some (oh, rest2) =>
        match expectChar ':' rest2 with
        | none => none
        | some rest3 =>
          match readDigits 2 0 rest3 with
          | none => none
          | some (om, rest4) =>
            if rest4 = [] ∧ oh < 24 ∧ om < 60 then
              let mins : ℤ := oh * 60 + om
              some (some (if c = '-' then -mins else mins))
            else none
    else none

/-- Read the optional time-of-day part `HH:MM[:SS[.ffffff]][±HH:MM]` that
follows the date and one separator character. -/
def readTime (cs : List Char) : Option (ℤ × ℤ × ℤ × ℤ × Option ℤ) :=
  match readDigits 2 0 cs with
  | none => none
  | some (h, cs1) =>
    match expectChar ':' cs1 with
    | none => none
    | some cs2 =>
      match readDigits 2 0 cs2 with
      | none => none
      | some (mi, cs3) =>
        let secPart : Option (ℕ × ℕ × List Char) :=
          match cs3 with
          | ':' :: cs4 =>
            match readDigits 2 0 cs4 with
            | none => none
            | some (s, cs5) =>
              match readFraction cs5 with
              | none => none
              | some (us, cs6) => some (s, us, cs6)
          | _ => some (0, 0, cs3)
        match secPart with
        | none => none
        | some (s, us, cs7) =>
          if h < 24 ∧ mi < 60 ∧ s < 60 then
            match readOffset cs7 with
            | none => none
            | some tz => some ((h : ℤ), (mi : ℤ), (s : ℤ), (us : ℤ), tz)
          else none

/-- Model of `datetime.fromisoformat` on the subset of ISO-8601 shapes this
code base feeds it: `YYYY-MM-DD`, optionally followed by one separator
character and `HH:MM[:SS[.ffffff]]`, optionally followed by a UTC offset
`±HH:MM`.  Returns `none` where CPython raises `ValueError`. -/
def fromisoformat (str : String) : Option PyDateTime :=
  let cs := str.data
  match readDigits 4 0 cs with
  | none => none
  | some (y, cs1) =>
    match expectChar '-' cs1 with
    | none => none
    | some cs2 =>
      match readDigits 2 0 cs2 with
      | none => none
      | some (mo, cs3) =>
        match expectChar '-' cs3 with
        | none => none
        | some cs4 =>
          match readDigits 2 0 cs4 with
          | none => none
          | some (d, cs5) =>
            if 1 ≤ y ∧ 1 ≤ mo ∧ mo ≤ 12 ∧ 1 ≤ d ∧ (d : ℤ) ≤ daysInMonth y mo then
              match cs5 with
              | [] => some ⟨(y : ℤ), (mo : ℤ), (d : ℤ), 0, 0, 0, 0, none⟩
              | _sep :: cs6 =>
                match readTime cs6 with
                | none => none
                | some (h, mi, s, us, tz) =>
                  some ⟨(y : ℤ), (mo : ℤ), (d : ℤ), h, mi, s, us, tz⟩
            else none

/-- Replacement of every occurrence of a single character by a string,
modelling Python's `str.replace` at the one-character pattern used in
`_parse_ws_timestamp` (`ts.replace("Z", "+00:00")`). -/
def replaceChar (old : Char) (new : List Char) : List Char → List Char
  | [] => []
  | c :: rest => (if c = old then new else [c]) ++ replaceChar old new rest

/-- String form of `replaceChar`. -/
def pyReplaceZ (s : String) : String :=
  String.mk (replaceChar 'Z' ("+00:00".data) s.data)

/-- Shape of the value found at `message.get("timestamp")`: absent/null,
a number (epoch milliseconds), a string, or any other JSON shape. -/
inductive WsVal where
  | nullv : WsVal
  | num : ℚ → WsVal
  | str : String → WsVal
  | other : WsVal
deriving DecidableEq

/-- Model of `DataRecorder._parse_ws_timestamp` (recorder.py lines
497-508): absent input falls back to the current time (`now`, the captured
`datetime.utcnow()`); a number is read as epoch milliseconds via
`utcfromtimestamp`; a string goes through `fromisoformat` after replacing
`"Z"` with `"+00:00"`, falling back to `now` on parse failure; any other
shape falls back to `now`. -/
def parseWsTimestamp (now : PyDateTime) (ts : WsVal) : PyDateTime :=
  match ts with
  | WsVal.nullv => now
  | WsVal.num ms => utcfromtimestampMs ms
  | WsVal.str s =>
    match fromisoformat (pyReplaceZ s) with
    | some d => d
    | none => now
  | WsVal.other => now

/-- Token (outcome) in a market — `models.py` class `Token`. -/
structure Token where
  token_id : String
  outcome : String
  price : ℚ
deriving DecidableEq

/-- Polymarket market data from the Gamma API — `models.py` class
`Market`.  Optional Pydantic fields are `Option`s; the `tokens` and
`outcomes` defaults are empty lists. -/
structure Market where
  market_id : String
  title : String
  volume_24h : ℚ
  liquidity : ℚ
  end_time : String
  tokens : List Token := []
  outcomes : Option (List String) := some []
  best_bid : Option ℚ := none
  best_ask : Option ℚ := none
  last_trade_price : Option ℚ := none
  competitive : Option ℚ := none
  numeric_id : Option String := none
  slug : Option String := none
  condition_id : Option String := none
  start_time : Option String := none
  active : Option Bool := none
  closed : Option Bool := none
  archived : Option Bool := none
  description : Option String := none
  category : Option String := none
  tags : Option (List String) := some []
  image : Option String := none
  resolution_source : Option String := none
  resolved : Option Bool := none
  resolution_outcome : Option String := none
deriving DecidableEq

/-- Snapshot of a binary market at a point in time — `models.py` class
`MarketSnapshot` (stored fields; the two computed fields are the
functions `MarketSnapshot.parity_gap` and `MarketSnapshot.spread`). -/
structure MarketSnapshot where
  timestamp : PyDateTime
  market_id : String
  title : String
  yes_price : ℚ
  no_price : ℚ
  best_bid : Option ℚ := none
  best_ask : Option ℚ := none
  volume_24h : Option ℚ := none
  liquidity : Option ℚ := none
  category : Option String := none
  end_time : Option String := none
  active : Option Bool := none
deriving DecidableEq

/-- Computed field `MarketSnapshot.parity_gap` (models.py lines 72-80):
`round(1.0 - self.yes_price - self.no_price, 6)`. -/
def MarketSnapshot.parity_gap (s : MarketSnapshot) : ℚ :=
  round6 (qSub (qSub 1 s.yes_price) s.no_price)

/-- Computed field `MarketSnapshot.spread` (models.py lines 82-88):
`round(self.best_ask - self.best_bid, 6)` when both sides are present,
`None` otherwise. -/
def MarketSnapshot.spread (s : MarketSnapshot) : Option ℚ :=
  match s.best_bid, s.best_ask with
  | some b, some a => some (round6 (qSub a b))
  | _, _ => none

/-- Snapshot of a single outcome in a multi-outcome market — `models.py`
class `OutcomeSnapshot`. -/
structure OutcomeSnapshot where
  timestamp : PyDateTime
  market_id : String
  outcome : String
  price : ℚ
  token_id : Option String := none
deriving DecidableEq

/-- Snapshot of a single order book level — `models.py` class
`OrderBookSnapshot`. -/
structure OrderBookSnapshot where
  timestamp : PyDateTime
  market_id : String
  token_id : String
  side : String
  level : ℤ
  price : ℚ
  size : ℚ
deriving DecidableEq

/-- Snapshot of a single trade — `models.py` class `TradeSnapshot`. -/
structure TradeSnapshot where
  timestamp : PyDateTime
  market_id : String
  token_id : String
  price : ℚ
  size : ℚ
  side : Option String := none
deriving DecidableEq

/-- Snapshot of a market resolution — `models.py` class
`ResolutionSnapshot`. -/
structure ResolutionSnapshot where
  timestamp : PyDateTime
  market_id : String
  resolved : Bool
  resolution_outcome : Option String := none
  resolution_source : Option String := none
deriving DecidableEq

/-- Real-time price change event from the WebSocket — `models.py` class
`PriceChangeEvent`. -/
structure PriceChangeEvent where
  timestamp : PyDateTime
  market_id : String
  token_id : String
  price : ℚ
  size : ℚ
  side : String
  best_bid : Option ℚ := none
  best_ask : Option ℚ := none
deriving DecidableEq

/-- The token-construction loop of `GammaClient._parse_market`
(gamma_client.py lines 111-116): one `Token` per outcome label, price
taken positionally and defaulting to `0.0` past the end of the price
array, token identifier taken positionally and defaulting to `""` past
the end of the token-id array. -/
def buildTokens (outcomes : List String) (prices : List ℚ)
    (tokenIds : List String) : List Token :=
  (List.range outcomes.length).map fun i =>
    { token_id := tokenIds.getD i ""
      outcome := outcomes.getD i ""
      price := prices.getD i 0 }

/-- The fields of the upstream Gamma payload consulted by the
market-identity resolution in `GammaClient._parse_market` (gamma_client.py
lines 129-132 and 143): `data.get("conditionId")`, `data.get("condition_id")`
and the generic numeric `data.get("id")`.  `none` models an absent key
(whose `.get(key, "")` default is the empty string). -/
structure GammaPayload where
  conditionId : Option String := none
  condition_id : Option String := none
  id : Option ℤ := none
deriving DecidableEq

/-- Python `or` on strings: the left operand if truthy (non-empty), else
the right operand. -/
def pyStrOr (a b : String) : String := if a = "" then b else a

/-- The `str(data.get("id", ""))` fallback: the decimal form of the
generic numeric id, or `""` when the key is absent. -/
def idStr (p : GammaPayload) : String :=
  match p.id with
  | some n => toString n
  | none => ""

/-- The market-identity resolution of `GammaClient._parse_market`
(gamma_client.py lines 130-132):
`data.get("conditionId", "") or data.get("condition_id", "") or str(data.get("id", ""))`. -/
def marketIdOf (p : GammaPayload) : String :=
  pyStrOr (p.conditionId.getD "")
    (pyStrOr (p.condition_id.getD "") (idStr p))

/-- ASCII lowercase of one character (the fragment of Python's
`str.lower` relevant to the "Yes"/"No" outcome labels this code
compares). -/
def pyLowerChar (c : Char) : Char :=
  if 'A' ≤ c ∧ c ≤ 'Z' then Char.ofNat (c.toNat + 32) else c

/-- ASCII lowercase of a string, modelling `token.outcome.lower()`. -/
def pyLower (s : String) : String := String.mk (s.data.map pyLowerChar)

/-- One step of the yes/no price scan in `DataRecorder.create_snapshots`
(recorder.py lines 199-203): a token labelled "yes" (case-insensitively)
overwrites the yes price, one labelled "no" overwrites the no price,
anything else leaves the pair unchanged. -/
def yesNoStep (acc : ℚ × ℚ) (t : Token) : ℚ × ℚ :=
  if pyLower t.outcome = "yes" then (t.price, acc.2)
  else if pyLower t.outcome = "no" then (acc.1, t.price)
  else acc

/-- The yes/no prices a market's token list yields in
`DataRecorder.create_snapshots`: both start at `0.0` and the last
matching token wins. -/
def yesNoPrices (tokens : List Token) : ℚ × ℚ :=
  tokens.foldl yesNoStep (0, 0)

/-- The `MarketSnapshot` constructed for one market in
`DataRecorder.create_snapshots` (recorder.py lines 207-220), at the
batch timestamp `ts` (the `datetime.utcnow()` captured once per call). -/
def marketSnapshotOf (ts : PyDateTime) (m : Market) : MarketSnapshot :=
  { timestamp := ts
    market_id := m.market_id
    title := m.title
    yes_price := (yesNoPrices m.tokens).1
    no_price := (yesNoPrices m.tokens).2
    best_bid := m.best_bid
    best_ask := m.best_ask
    volume_24h := some m.volume_24h
    liquidity := some m.liquidity
    category := m.category
    end_time := some m.end_time
    active := m.active }

/-- Model of `DataRecorder.create_snapshots` (recorder.py lines 189-223):
a snapshot is appended for a market exactly when it has exactly two
tokens and a positive yes price. -/
def createSnapshots (ts : PyDateTime) : List Market → List MarketSnapshot
  | [] => []
  | m :: rest =>
    if m.tokens.length = 2 ∧ 0 < (yesNoPrices m.tokens).1 then
      marketSnapshotOf ts m :: createSnapshots ts rest
    else createSnapshots ts rest

/-- The `OutcomeSnapshot` constructed for one token in
`DataRecorder.create_outcome_snapshots` (recorder.py lines 234-240). -/
def outcomeSnapshotOf (ts : PyDateTime) (m : Market) (t : Token) : OutcomeSnapshot :=
  { timestamp := ts
    market_id := m.market_id
    outcome := t.outcome
    price := t.price
    token_id := some t.token_id }

/-- Model of `DataRecorder.create_outcome_snapshots` (recorder.py lines
225-243): one snapshot per token, only for markets with at least three
tokens. -/
def createOutcomeSnapshots (ts : PyDateTime) : List Market → List OutcomeSnapshot
  | [] => []
  | m :: rest =>
    (if 3 ≤ m.tokens.length then m.tokens.map (outcomeSnapshotOf ts m) else [])
      ++ createOutcomeSnapshots ts rest

/-- One price level of an order book payload: the `{"price": .., "size": ..}`
entries of the CLOB book endpoint (values already coerced to numbers, as
`float(bid["price"])` does on well-formed entries). -/
structure BookLevel where
  price : ℚ
  size : ℚ
deriving DecidableEq

/-- Order book payload: `book_data.get("bids", [])` and
`book_data.get("asks", [])`. -/
structure BookData where
  bids : List BookLevel := []
  asks : List BookLevel := []
deriving DecidableEq

/-- The `for level, entry in enumerate(...)` loop of
`DataRecorder.create_orderbook_snapshots`: one record per level, levels
numbered consecutively from `n`. -/
def bookRows (ts : PyDateTime) (mid tid lbl : String) (n : ℤ) :
    List BookLevel → List OrderBookSnapshot
  | [] => []
  | b :: rest =>
    { timestamp := ts, market_id := mid, token_id := tid, side := lbl,
      level := n, price := b.price, size := b.size }
      :: bookRows ts mid tid lbl (n + 1) rest

/-- Model of `DataRecorder.create_orderbook_snapshots` (recorder.py lines
369-412): slice each side to `levels` entries when `levels > 0` (any
other value leaves the sides unsliced), then emit bid records at levels
0,1,... followed by ask records at levels 0,1,...  The Python default for
`levels` is 5. -/
def createOrderbookSnapshots (ts : PyDateTime) (mid tid : String)
    (book : BookData) (levels : ℤ) : List OrderBookSnapshot :=
  let bids := if 0 < levels then book.bids.take levels.toNat else book.bids
  let asks := if 0 < levels then book.asks.take levels.toNat else book.asks
  bookRows ts mid tid "bid" 0 bids ++ bookRows ts mid tid "ask" 0 asks

/-- Raw value of a loosely-typed WebSocket message field, as
`message.get(key)` yields it: `nullv` for an absent key or an explicit
JSON null (both of which `get` returns as `None`), a number, or a
string. -/
inductive BVal where
  | nullv : BVal
  | num : ℚ → BVal
  | str : String → BVal
deriving DecidableEq

/-- Python truthiness of a `BVal`: `None` is falsy, a number is truthy
unless it is zero, a string is truthy unless it is empty. -/
def pyTruthy : BVal → Bool
  | BVal.nullv => false
  | BVal.num q => decide (q ≠ 0)
  | BVal.str s => decide (s ≠ "")

/-- Model of Python `float(...)` on a decimal string: optional
whitespace-free sign, then digits with an optional fractional part
(the subset of `float`'s grammar this pipeline's payloads use).
`none` models a raised `ValueError`. -/
def parseFloatString (s : String) : Option ℚ :=
  let core : List Char → Option ℚ := fun cs =>
    let intPart := cs.takeWhile Char.isDigit
    let rest := cs.dropWhile Char.isDigit
    let intVal : ℤ := (intPart.foldl (fun a c => a * 10 + digitVal c) 0 : ℕ)
    match rest with
    | [] => if intPart = [] then none else some (Rat.divInt intVal 1)
    | '.' :: fr =>
      let fracPart := fr.takeWhile Char.isDigit
      let rest2 := fr.dropWhile Char.isDigit
      if rest2 ≠ [] then none
      else if intPart = [] ∧ fracPart = [] then none
      else
        let fracVal : ℤ := (fracPart.foldl (fun a c => a * 10 + digitVal c) 0 : ℕ)
        some (qAdd (Rat.divInt intVal 1) (Rat.divInt fracVal (10 ^ fracPart.length)))
    | _ => none
  match s.data with
  | '-' :: cs => (core cs).map qNeg
  | '+' :: cs => core cs
  | cs => core cs

/-- Model of Python `float(...)` on a raw field value: numbers pass
through, strings are parsed, `None` raises (`none`). -/
def pyFloat : BVal → Option ℚ
  | BVal.nullv => none
  | BVal.num q => some q
  | BVal.str s => parseFloatString s

/-- The best-bid/best-ask decoding of `DataRecorder.handle_price_change`
(recorder.py lines 538-539): `float(v) if v else None`.  The outer
`Except` is a raised conversion error; the inner `Option` is the stored
SQL-nullable value. -/
def decodeBest (v : BVal) : Except Unit (Option ℚ) :=
  if pyTruthy v then
    match pyFloat v with
    | some q => Except.ok (some q)
    | none => Except.error ()
  else Except.ok none

/-- One nested entry of `message["price_changes"]`, with the `.get`
defaults of recorder.py lines 534-537 for absent keys already noted:
`asset_id` and `side` default to `""`, `price` and `size` default to the
number `0` before the `float(...)` coercion. -/
structure PriceChangeEntry where
  asset_id : String := ""
  price : BVal := BVal.num 0
  size : BVal := BVal.num 0
  side : String := ""
deriving DecidableEq

/-- A `price_change` WebSocket message as `DataRecorder.handle_price_change`
reads it: the message-level timestamp, market id (defaulted to `""`),
raw best bid/ask values, and the nested change entries
(`message.get("price_changes", [])`). -/
structure PCMessage where
  timestamp : WsVal := WsVal.nullv
  market : String := ""
  best_bid : BVal := BVal.nullv
  best_ask : BVal := BVal.nullv
  price_changes : List PriceChangeEntry := []
deriving DecidableEq

/-- Construction of one `PriceChangeEvent` inside the loop of
`DataRecorder.handle_price_change` (recorder.py lines 530-541); a failing
`float(...)` conversion propagates as an error out of the whole call. -/
def mkPriceChangeEvent (ts : PyDateTime) (mid : String) (bid ask : BVal)
    (c : PriceChangeEntry) : Except Unit PriceChangeEvent :=
  match pyFloat c.price with
  | none => Except.error ()
  | some p =>
    match pyFloat c.size with
    | none => Except.error ()
    | some sz =>
      match decodeBest bid with
      | Except.error u => Except.error u
      | Except.ok b =>
        match decodeBest ask with
        | Except.error u => Except.error u
        | Except.ok a =>
          Except.ok
            { timestamp := ts, market_id := mid, token_id := c.asset_id,
              price := p, size := sz, side := c.side,
              best_bid := b, best_ask := a }

/-- Effectful map over a list in `Except`, mirroring a Python `for` loop
that appends to an accumulator and lets exceptions propagate. -/
def mapExcept (f : α → Except ε β) : List α → Except ε (List β)
  | [] => Except.ok []
  | a :: rest =>
    match f a with
    | Except.error u => Except.error u
    | Except.ok b =>
      match mapExcept f rest with
      | Except.error u => Except.error u
      | Except.ok bs => Except.ok (b :: bs)

/-- Model of `DataRecorder.handle_price_change` (recorder.py lines
521-542): decode the shared message-level timestamp, market id and best
bid/ask once, then emit one `PriceChangeEvent` per nested change entry. -/
def handlePriceChange (now : PyDateTime) (msg : PCMessage) :
    Except Unit (List PriceChangeEvent) :=
  let ts := parseWsTimestamp now msg.timestamp
  mapExcept (mkPriceChangeEvent ts msg.market msg.best_bid msg.best_ask)
    msg.price_changes

/-- The six append-only tables of the SQLite schema
(`DataRecorder.init_db`, recorder.py lines 59-138), modelled as
in-memory row lists in insertion order. -/
structure Database where
  market_snapshots : List MarketSnapshot := []
  outcome_snapshots : List OutcomeSnapshot := []
  orderbook_snapshots : List OrderBookSnapshot := []
  trade_snapshots : List TradeSnapshot := []
  resolution_snapshots : List ResolutionSnapshot := []
  price_change_events : List PriceChangeEvent := []
deriving DecidableEq

/-- The recorder's connection state: `self._db`, which is `None` until
`init_db` runs. -/
structure RecorderState where
  db : Option Database := none
deriving DecidableEq

/-- Error kinds a save operation can signal: the store-uninitialized
precondition violation (the `RuntimeError("Database not initialized...")`
of the `save_*` methods), kept distinct from storage I/O errors. -/
inductive SaveError where
  | notInitialized : SaveError
  | storage : SaveError
deriving DecidableEq

/-- Model of `DataRecorder.save_snapshots` (recorder.py lines 245-278):
precondition error when the store is uninitialized, otherwise append the
whole batch and commit. -/
def saveSnapshots (st : RecorderState) (snaps : List MarketSnapshot) :
    Except SaveError RecorderState :=
  match st.db with
  | none => Except.error SaveError.notInitialized
  | some d =>
    Except.ok ⟨some { d with market_snapshots := d.market_snapshots ++ snaps }⟩

/-- Model of `DataRecorder.save_outcome_snapshots` (recorder.py lines
280-302). -/
def saveOutcomeSnapshots (st : RecorderState) (snaps : List OutcomeSnapshot) :
    Except SaveError RecorderState :=
  match st.db with
  | none => Except.error SaveError.notInitialized
  | some d =>
    Except.ok ⟨some { d with outcome_snapshots := d.outcome_snapshots ++ snaps }⟩

/-- Model of `DataRecorder.save_orderbook_snapshots` (recorder.py lines
414-438). -/
def saveOrderbookSnapshots (st : RecorderState) (snaps : List OrderBookSnapshot) :
    Except SaveError RecorderState :=
  match st.db with
  | none => Except.error SaveError.notInitialized
  | some d =>
    Except.ok ⟨some { d with orderbook_snapshots := d.orderbook_snapshots ++ snaps }⟩

/-- Model of `DataRecorder.save_trade_snapshots` (recorder.py lines
468-491). -/
def saveTradeSnapshots (st : RecorderState) (snaps : List TradeSnapshot) :
    Except SaveError RecorderState :=
  match st.db with
  | none => Except.error SaveError.notInitialized
  | some d =>
    Except.ok ⟨some { d with trade_snapshots := d.trade_snapshots ++ snaps }⟩

/-- Model of `DataRecorder.save_resolution_snapshots` (recorder.py lines
686-710). -/
def saveResolutionSnapshots (st : RecorderState) (snaps : List ResolutionSnapshot) :
    Except SaveError RecorderState :=
  match st.db with
  | none => Except.error SaveError.notInitialized
  | some d =>
    Except.ok ⟨some { d with resolution_snapshots := d.resolution_snapshots ++ snaps }⟩

/-- Model of `DataRecorder.save_price_change_events` (recorder.py lines
555-578).  NOTE: unlike every other save method, an uninitialized store
makes this method `return` silently (`if not self._db: return`), so the
model yields `ok` with the state unchanged instead of the precondition
error. -/
def savePriceChangeEvents (st : RecorderState) (events : List PriceChangeEvent) :
    Except SaveError RecorderState :=
  match st.db with
  | none => Except.ok st
  | some d =>
    Except.ok ⟨some { d with price_change_events := d.price_change_events ++ events }⟩

/-- Decidable equality for `Except` values, used to evaluate concrete
save and decode results. -/
instance exceptDecEq {ε α : Type} [DecidableEq ε] [DecidableEq α] :
    DecidableEq (Except ε α)
  | Except.error x, Except.error y =>
    if h : x = y then isTrue (by rw [h])
    else isFalse (by intro hh; injection hh; contradiction)
  | Except.error _, Except.ok _ => isFalse (fun hh => Except.noConfusion hh)
  | Except.ok _, Except.error _ => isFalse (fun hh => Except.noConfusion hh)
  | Except.ok x, Except.ok y =>
    if h : x = y then isTrue (by rw [h])
    else isFalse (by intro hh; injection hh; contradiction)

/-- A fixed concrete instant used by the concrete evaluations below. -/
def dt0 : PyDateTime := ⟨2024, 1, 1, 0, 0, 0, 0, none⟩

/-- A concrete price-change event for exercising the save path. -/
def pcev0 : PriceChangeEvent :=
  { timestamp := dt0, market_id := "m", token_id := "t",
    price := 1, size := 2, side := "BUY" }

/-- A concrete binary market: two tokens, positive yes price. -/
def mBinary : Market :=
  { market_id := "mb", title := "binary", volume_24h := 1500, liquidity := 800,
    end_time := "2025-01-01",
    tokens := [⟨"ty", "Yes", Rat.divInt 3 5⟩, ⟨"tn", "No", Rat.divInt 2 5⟩],
    best_bid := some (Rat.divInt 1 2), best_ask := some (Rat.divInt 11 20) }

/-- A concrete three-outcome market. -/
def mTriple : Market :=
  { market_id := "m3", title := "triple", volume_24h := 2000, liquidity := 900,
    end_time := "2025-01-01",
    tokens := [⟨"a", "Alpha", Rat.divInt 1 4⟩, ⟨"b", "Beta", Rat.divInt 1 4⟩,
               ⟨"c", "Gamma", Rat.divInt 1 2⟩] }

/-- A concrete market snapshot with both book sides present. -/
def snap0 : MarketSnapshot :=
  { timestamp := dt0, market_id := "mb", title := "binary",
    yes_price := Rat.divInt 3 5, no_price := Rat.divInt 2 5,
    best_bid := some (Rat.divInt 1 2), best_ask := some (Rat.divInt 11 20) }

/-- A concrete order book with eight bid levels and no ask levels. -/
def book8 : BookData :=
  { bids := [⟨1, 1⟩, ⟨2, 1⟩, ⟨3, 1⟩, ⟨4, 1⟩, ⟨5, 1⟩, ⟨6, 1⟩, ⟨7, 1⟩, ⟨8, 1⟩],
    asks := [] }

/-- A concrete `price_change` message with two nested change entries. -/
def msg7 : PCMessage :=
  { timestamp := WsVal.nullv, market := "mkt7",
    best_bid := BVal.num (Rat.divInt 1 2), best_ask := BVal.str "0.55",
    price_changes :=
      [{ asset_id := "t1", price := BVal.str "0.30", size := BVal.num 100,
         side := "BUY" },
       { asset_id := "t2", price := BVal.num (Rat.divInt 7 10),
         size := BVal.num 50, side := "SELL" }] }

/-- The two events `msg7` decodes to. -/
def ev7a : PriceChangeEvent :=
  { timestamp := dt0, market_id := "mkt7", token_id := "t1",
    price := Rat.divInt 3 10, size := 100, side := "BUY",
    best_bid := some (Rat.divInt 1 2), best_ask := some (Rat.divInt 11 20) }

/-- Second event `msg7` decodes to. -/
def ev7b : PriceChangeEvent :=
  { timestamp := dt0, market_id := "mkt7", token_id := "t2",
    price := Rat.divInt 7 10, size := 50, side := "SELL",
    best_bid := some (Rat.divInt 1 2), best_ask := some (Rat.divInt 11 20) }

/-- A concrete `price_change` message whose best bid is the falsy number 0
and whose best ask is the truthy string "0". -/
def msg10 : PCMessage :=
  { timestamp := WsVal.nullv, market := "mkt", best_bid := BVal.num 0,
    best_ask := BVal.str "0",
    price_changes :=
      [{ asset_id := "tok", price := BVal.num 1, size := BVal.num 2,
         side := "BUY" }] }

/-- The single event `msg10` decodes to. -/
def ev10 : PriceChangeEvent :=
  { timestamp := dt0, market_id := "mkt", token_id := "tok",
    price := 1, size := 2, side := "BUY", best_bid := none,
    best_ask := some 0 }

/-- Consecutive integers starting at `n`, used to state the level
numbering of order-book records. -/
def levelsFrom (n : ℤ) : ℕ → List ℤ
  | 0 => []
  | k + 1 => n :: levelsFrom (n + 1) k

theorem qAdd_eq (a b : ℚ) : qAdd a b = a + b := by
  have ha : ((a.den : ℚ)) ≠ 0 := by exact_mod_cast a.den_nz
  have hb : ((b.den : ℚ)) ≠ 0 := by exact_mod_cast b.den_nz
  rw [qAdd, Rat.divInt_eq_div]
  push_cast
  conv_rhs => rw [← Rat.num_div_den a, ← Rat.num_div_den b]
  rw [div_add_div _ _ ha hb]
  ring_nf

theorem qSub_eq (a b : ℚ) : qSub a b = a - b := by
  have ha : ((a.den : ℚ)) ≠ 0 := by exact_mod_cast a.den_nz
  have hb : ((b.den : ℚ)) ≠ 0 := by exact_mod_cast b.den_nz
  rw [qSub, Rat.divInt_eq_div]
  push_cast
  conv_rhs => rw [← Rat.num_div_den a, ← Rat.num_div_den b]
  rw [div_sub_div _ _ ha hb]
  ring_nf

theorem qMul_eq (a b : ℚ) : qMul a b = a * b := by
  rw [qMul, Rat.divInt_eq_div]
  push_cast
  conv_rhs => rw [← Rat.num_div_den a, ← Rat.num_div_den b]
  rw [div_mul_div_comm]

theorem qNeg_eq (a : ℚ) : qNeg a = -a := by
  rw [qNeg, Rat.divInt_eq_div]
  push_cast
  conv_rhs => rw [← Rat.num_div_den a]
  rw [neg_div]

/-- C1 counterexample: saving price-change events on an uninitialized
store does NOT fail with the precondition error — it is a silent no-op
that returns successfully and writes nothing, refuting the claim that
every snapshot-save operation fails with the store-uninitialized error. -/
theorem save_price_change_uninitialized_noop_cex :
    savePriceChangeEvents ⟨none⟩ [pcev0] = Except.ok ⟨none⟩ ∧
    savePriceChangeEvents ⟨none⟩ [pcev0] ≠
      Except.error SaveError.notInitialized := by
  exact ⟨rfl, by decide⟩

/-- C1 (amended): on an uninitialized store, saving market, outcome,
order-book, trade and resolution snapshots each fails with the distinct
precondition error and writes no row; saving price-change events instead
silently succeeds without writing any row and without touching the
state. -/
theorem uninitialized_save_behavior (st : RecorderState) (h : st.db = none)
    (ms : List MarketSnapshot) (os : List OutcomeSnapshot)
    (obs : List OrderBookSnapshot) (trs : List TradeSnapshot)
    (rs : List ResolutionSnapshot) (evs : List PriceChangeEvent) :
    saveSnapshots st ms = Except.error SaveError.notInitialized ∧
    saveOutcomeSnapshots st os = Except.error SaveError.notInitialized ∧
    saveOrderbookSnapshots st obs = Except.error SaveError.notInitialized ∧
    saveTradeSnapshots st trs = Except.error SaveError.notInitialized ∧
    saveResolutionSnapshots st rs = Except.error SaveError.notInitialized ∧
    savePriceChangeEvents st evs = Except.ok st := by
  rcases st with ⟨db⟩
  cases db with
  | none => exact ⟨rfl, rfl, rfl, rfl, rfl, rfl⟩
  | some d => simp at h

/-- C1 witness: the amended behaviour at a concrete uninitialized state. -/
theorem uninitialized_save_behavior_witness :
    saveSnapshots ⟨none⟩ [snap0] = Except.error SaveError.notInitialized ∧
    savePriceChangeEvents ⟨none⟩ [] = Except.ok ⟨none⟩ := by
  have h := uninitialized_save_behavior ⟨none⟩ rfl [snap0] [] [] [] [] []
  exact ⟨h.1, h.2.2.2.2.2⟩

/-- C2: for every MarketSnapshot the computed `parity_gap` equals
`round(1 - yes_price - no_price, 6)`, and `spread` equals
`round(best_ask - best_bid, 6)` when both sides are present and is
`None` when either side is absent. -/
theorem parity_gap_spread_spec (s : MarketSnapshot) :
    s.parity_gap = round6 (1 - s.yes_price - s.no_price) ∧
    (∀ b a, s.best_bid = some b → s.best_ask = some a →
      s.spread = some (round6 (a - b))) ∧
    (s.best_bid = none ∨ s.best_ask = none → s.spread = none) := by
  refine ⟨?_, ?_, ?_⟩
  · rw [MarketSnapshot.parity_gap, qSub_eq, qSub_eq]
  · intro b a hb ha
    simp [MarketSnapshot.spread, hb, ha, qSub_eq]
  · rintro (h | h)
    · cases ha : s.best_ask <;> simp [MarketSnapshot.spread, h, ha]
    · cases hb : s.best_bid <;> simp [MarketSnapshot.spread, h, hb]

/-- C2 witness: the computed fields at a concrete snapshot. -/
theorem parity_gap_spread_spec_witness :
    snap0.parity_gap = 0 ∧ snap0.spread = some (Rat.divInt 1 20) := by
  have h := parity_gap_spread_spec snap0
  constructor
  · rw [h.1, ← qSub_eq, ← qSub_eq]
    decide
  · have h2 := h.2.1 (Rat.divInt 1 2) (Rat.divInt 11 20) (by decide) (by decide)
    rw [h2, ← qSub_eq]
    decide

/-- C5: the normalized market identity prefers the camel-case condition
identifier when non-empty, then the snake-case one when non-empty, and
otherwise falls back to the string form of the generic numeric id; in
particular a payload with both condition-id spellings populated yields
the camel-case value. -/
theorem market_id_precedence_spec (p : GammaPayload) :
    (∀ s, p.conditionId = some s → s ≠ "" → marketIdOf p = s) ∧
    (p.conditionId.getD "" = "" →
      ∀ s, p.condition_id = some s → s ≠ "" → marketIdOf p = s) ∧
    (p.conditionId.getD "" = "" → p.condition_id.getD "" = "" →
      marketIdOf p = idStr p) := by
  refine ⟨?_, ?_, ?_⟩
  · intro s hs hne
    simp [marketIdOf, pyStrOr, hs, hne]
  · intro hc s hs hne
    simp [marketIdOf, pyStrOr, hc, hs, hne]
  · intro hc hc2
    simp [marketIdOf, pyStrOr, hc, hc2]

/-- C5 witness: both condition-id spellings populated yields the
camel-case value. -/
theorem market_id_precedence_spec_witness :
    marketIdOf { conditionId := some "0xCAM", condition_id := some "0xSNAKE",
                 id := some 7 } = "0xCAM" := by
  exact (market_id_precedence_spec _).1 "0xCAM" rfl (by decide)

/-- Helper: a fold step over tokens none of which is labelled "yes"
leaves the yes price unchanged. -/
theorem yesNoFold_fst_const (l : List Token) :
    ∀ acc : ℚ × ℚ, (∀ u ∈ l, pyLower u.outcome ≠ "yes") →
      (List.foldl yesNoStep acc l).1 = acc.1 := by
  induction l with
  | nil => intro acc _; rfl
  | cons a as ih =>
    intro acc h
    have ha := h a (by simp)
    have hrest : ∀ u ∈ as, pyLower u.outcome ≠ "yes" :=
      fun u hu => h u (by simp [hu])
    rw [List.foldl_cons, ih _ hrest]
    by_cases hno : pyLower a.outcome = "no" <;> simp [yesNoStep, ha, hno]

/-- C3: `create_snapshots` emits a MarketSnapshot for a market exactly
when the market has exactly two tokens and its yes price is strictly
positive (the filter/map characterization), and the yes price is the
price of the token whose lower-cased outcome label is "yes" (the last
such token winning, hence THE yes token when it is unique). -/
theorem create_snapshots_filter_spec (ts : PyDateTime) (ms : List Market)
    (pre post : List Token) (tk : Token) :
    createSnapshots ts ms =
      (ms.filter fun m =>
        decide (m.tokens.length = 2 ∧ 0 < (yesNoPrices m.tokens).1)).map
        (marketSnapshotOf ts) ∧
    (pyLower tk.outcome = "yes" → (∀ u ∈ post, pyLower u.outcome ≠ "yes") →
      (yesNoPrices (pre ++ tk :: post)).1 = tk.price) := by
  constructor
  · induction ms with
    | nil => rfl
    | cons m rest ih =>
      by_cases h : m.tokens.length = 2 ∧ 0 < (yesNoPrices m.tokens).1 <;>
        simp [createSnapshots, List.filter_cons, h, ih]
  · intro hy hpost
    rw [yesNoPrices, List.foldl_append, List.foldl_cons,
      yesNoFold_fst_const post _ hpost]
    simp [yesNoStep, hy]

/-- C3 witness: a three-token market produces no MarketSnapshot, a
two-token market with positive yes price produces exactly its snapshot,
and the yes price is the price of the unique "Yes"-labelled token. -/
theorem create_snapshots_filter_spec_witness :
    createSnapshots dt0 [mBinary, mTriple] = [marketSnapshotOf dt0 mBinary] ∧
    (yesNoPrices [⟨"ty", "Yes", Rat.divInt 3 5⟩, ⟨"tn", "No", Rat.divInt 2 5⟩]).1 =
      Rat.divInt 3 5 := by
  have h := create_snapshots_filter_spec dt0 [mBinary, mTriple]
    [] [⟨"tn", "No", Rat.divInt 2 5⟩] ⟨"ty", "Yes", Rat.divInt 3 5⟩
  exact ⟨h.1.trans (by decide), h.2 (by decide) (by decide)⟩

/-- C4: token construction is total over arrays of arbitrary, possibly
unequal, lengths — one Token per outcome label, with the price taken
positionally and defaulting to 0.0 past the end of the price array, and
the token identifier defaulting to the empty string past the end of the
token-id array. -/
theorem build_tokens_alignment_spec (o : List String) (p : List ℚ)
    (t : List String) :
    (buildTokens o p t).length = o.length ∧
    (∀ i, i < o.length →
      (buildTokens o p t).getD i ⟨"", "", 0⟩ =
        ⟨t.getD i "", o.getD i "", p.getD i 0⟩) ∧
    (∀ i, i < o.length → p.length ≤ i →
      ((buildTokens o p t).getD i ⟨"", "", 0⟩).price = 0) ∧
    (∀ i, i < o.length → t.length ≤ i →
      ((buildTokens o p t).getD i ⟨"", "", 0⟩).token_id = "") := by
  have hlen : (buildTokens o p t).length = o.length := by
    simp [buildTokens]
  have hget : ∀ i, i < o.length →
      (buildTokens o p t).getD i ⟨"", "", 0⟩ =
        ⟨t.getD i "", o.getD i "", p.getD i 0⟩ := by
    intro i hi
    simp [buildTokens, List.getD, List.getElem?_map, List.getElem?_range hi]
  refine ⟨hlen, hget, ?_, ?_⟩
  · intro i hi hp
    rw [hget i hi]
    simp [List.getD, List.getElem?_eq_none hp]
  · intro i hi ht
    rw [hget i hi]
    simp [List.getD, List.getElem?_eq_none ht]

/-- C4 witness: three outcome labels against one price and two token
ids — three tokens, the last one with defaulted price and id. -/
theorem build_tokens_alignment_spec_witness :
    (buildTokens ["Yes", "No", "Maybe"] [Rat.divInt 1 2] ["a", "b"]).length = 3 ∧
    (buildTokens ["Yes", "No", "Maybe"] [Rat.divInt 1 2] ["a", "b"]).getD 2
      ⟨"", "", 0⟩ = ⟨"", "Maybe", 0⟩ := by
  have h := build_tokens_alignment_spec ["Yes", "No", "Maybe"]
    [Rat.divInt 1 2] ["a", "b"]
  exact ⟨h.1.trans (by decide), (h.2.1 2 (by decide)).trans (by decide)⟩

/-- C9: `create_outcome_snapshots` distributes over list append, emits
exactly one OutcomeSnapshot per token for a market with at least three
tokens — each carrying that token's outcome label, price and token id —
and emits nothing for a market with fewer than three tokens. -/
theorem outcome_snapshots_spec (ts : PyDateTime) (ms1 ms2 : List Market)
    (m : Market) (t : Token) :
    createOutcomeSnapshots ts (ms1 ++ ms2) =
      createOutcomeSnapshots ts ms1 ++ createOutcomeSnapshots ts ms2 ∧
    (3 ≤ m.tokens.length →
      createOutcomeSnapshots ts [m] = m.tokens.map (outcomeSnapshotOf ts m)) ∧
    (m.tokens.length < 3 → createOutcomeSnapshots ts [m] = []) ∧
    outcomeSnapshotOf ts m t =
      ⟨ts, m.market_id, t.outcome, t.price, some t.token_id⟩ := by
  refine ⟨?_, ?_, ?_, rfl⟩
  · induction ms1 with
    | nil => simp [createOutcomeSnapshots]
    | cons a as ih => simp [createOutcomeSnapshots, ih]
  · intro h
    simp [createOutcomeSnapshots, h]
  · intro h
    have h3 : ¬ 3 ≤ m.tokens.length := by omega
    simp [createOutcomeSnapshots, h3]

/-- C9 witness: a three-token market yields its three outcome snapshots;
a two-token market yields none. -/
theorem outcome_snapshots_spec_witness :
    createOutcomeSnapshots dt0 [mTriple] =
      mTriple.tokens.map (outcomeSnapshotOf dt0 mTriple) ∧
    createOutcomeSnapshots dt0 [mBinary] = [] := by
  have h3 := outcome_snapshots_spec dt0 [] [] mTriple ⟨"", "", 0⟩
  have h2 := outcome_snapshots_spec dt0 [] [] mBinary ⟨"", "", 0⟩
  exact ⟨h3.2.1 (by decide), h2.2.2.1 (by decide)⟩

/-- C6 counterexample: the ISO string "2024-01-01T00:00:00Z" decodes to
the same UTC instant as the epoch-millisecond input 1704067200000, but
NOT to the same representation: the numeric path yields a naive datetime
while the string path yields an offset-aware one, so the two decoded
values are distinct. -/
theorem ws_timestamp_representation_cex :
    toEpochUs (parseWsTimestamp dt0 (WsVal.str "2024-01-01T00:00:00Z")) =
      toEpochUs (parseWsTimestamp dt0 (WsVal.num 1704067200000)) ∧
    parseWsTimestamp dt0 (WsVal.str "2024-01-01T00:00:00Z") ≠
      parseWsTimestamp dt0 (WsVal.num 1704067200000) := by
  exact ⟨by decide, by decide⟩

/-- C6 (amended): timestamp decoding is total; an absent input and any
unrecognized shape decode to the current time; a numeric input decodes
to the naive UTC datetime at that many epoch milliseconds; an ISO-8601
string with trailing "Z" decodes (via the "+00:00" replacement) to the
same UTC instant as the corresponding numeric input but as an
offset-aware value, not the naive representation the numeric case
uses. -/
theorem parse_ws_timestamp_spec (now : PyDateTime) (q : ℚ) (s : String) :
    parseWsTimestamp now WsVal.nullv = now ∧
    parseWsTimestamp now WsVal.other = now ∧
    parseWsTimestamp now (WsVal.num q) = utcfromtimestampMs q ∧
    (utcfromtimestampMs q).utcoffset = none ∧
    (∀ d, fromisoformat (pyReplaceZ s) = some d →
      parseWsTimestamp now (WsVal.str s) = d) ∧
    (fromisoformat (pyReplaceZ s) = none →
      parseWsTimestamp now (WsVal.str s) = now) ∧
    parseWsTimestamp now (WsVal.num 1700000000000) =
      ⟨2023, 11, 14, 22, 13, 20, 0, none⟩ ∧
    (parseWsTimestamp now (WsVal.str "2024-01-01T00:00:00Z")).utcoffset =
      some 0 ∧
    toEpochUs (parseWsTimestamp now (WsVal.str "2024-01-01T00:00:00Z")) =
      toEpochUs (parseWsTimestamp now (WsVal.num 1704067200000)) ∧
    parseWsTimestamp now (WsVal.str "2024-01-01T00:00:00Z") ≠
      parseWsTimestamp now (WsVal.num 1704067200000) := by
  have hz : parseWsTimestamp now (WsVal.str "2024-01-01T00:00:00Z") =
      ⟨2024, 1, 1, 0, 0, 0, 0, some 0⟩ := by
    have h0 : fromisoformat (pyReplaceZ "2024-01-01T00:00:00Z") =
        some ⟨2024, 1, 1, 0, 0, 0, 0, some 0⟩ := by decide
    simp [parseWsTimestamp, h0]
  have hn : parseWsTimestamp now (WsVal.num 1704067200000) =
      utcfromtimestampMs 1704067200000 := rfl
  have hn17 : parseWsTimestamp now (WsVal.num 1700000000000) =
      utcfromtimestampMs 1700000000000 := rfl
  refine ⟨rfl, rfl, rfl, rfl, ?_, ?_, ?_, ?_, ?_, ?_⟩
  · intro d h
    simp [parseWsTimestamp, h]
  · intro h
    simp [parseWsTimestamp, h]
  · rw [hn17]; decide
  · rw [hz]
  · rw [hz, hn]; decide
  · rw [hz, hn]; decide

/-- C6 witness: a parsable Z-suffixed string decodes to its aware
datetime; an unparsable string falls back to the supplied current
time. -/
theorem parse_ws_timestamp_spec_witness :
    parseWsTimestamp dt0 (WsVal.str "2024-03-05T06:07:08Z") =
      ⟨2024, 3, 5, 6, 7, 8, 0, some 0⟩ ∧
    parseWsTimestamp dt0 (WsVal.str "not a timestamp") = dt0 := by
  have h1 := parse_ws_timestamp_spec dt0 0 "2024-03-05T06:07:08Z"
  have h2 := parse_ws_timestamp_spec dt0 0 "not a timestamp"
  exact ⟨h1.2.2.2.2.1 _ (by decide), h2.2.2.2.2.2.1 (by decide)⟩

/-- Helper: the levels of a `bookRows` run are consecutive from its
starting index. -/
theorem bookRows_map_level (ts : PyDateTime) (mid tid lbl : String) :
    ∀ (l : List BookLevel) (n : ℤ),
      (bookRows ts mid tid lbl n l).map (fun r => r.level) =
        levelsFrom n l.length := by
  intro l
  induction l with
  | nil => intro n; rfl
  | cons b rest ih => intro n; simp [bookRows, levelsFrom, ih]

/-- Helper: filtering a `bookRows` run by its own side label keeps every
record. -/
theorem bookRows_filter_self (ts : PyDateTime) (mid tid lbl : String) :
    ∀ (l : List BookLevel) (n : ℤ),
      (bookRows ts mid tid lbl n l).filter (fun r => r.side == lbl) =
        bookRows ts mid tid lbl n l := by
  intro l
  induction l with
  | nil => intro n; rfl
  | cons b rest ih => intro n; simp [bookRows, List.filter_cons, ih]

/-- Helper: filtering a `bookRows` run by a different side label drops
every record. -/
theorem bookRows_filter_other (ts : PyDateTime) (mid tid lbl lbl2 : String)
    (h : lbl ≠ lbl2) :
    ∀ (l : List BookLevel) (n : ℤ),
      (bookRows ts mid tid lbl n l).filter (fun r => r.side == lbl2) = [] := by
  intro l
  induction l with
  | nil => intro n; rfl
  | cons b rest ih => intro n; simp [bookRows, List.filter_cons, ih, h]

/-- C8: with a positive depth `d`, order-book construction emits, per
side, exactly `min d (number of supplied levels)` records at consecutive
levels starting from 0; with depth 0 it emits one record per supplied
level at consecutive levels starting from 0. -/
theorem orderbook_depth_spec (ts : PyDateTime) (mid tid : String)
    (book : BookData) (d : ℤ) :
    (0 < d →
      ((createOrderbookSnapshots ts mid tid book d).filter
          (fun r => r.side == "bid")).map (fun r => r.level) =
        levelsFrom 0 (min d.toNat book.bids.length) ∧
      ((createOrderbookSnapshots ts mid tid book d).filter
          (fun r => r.side == "ask")).map (fun r => r.level) =
        levelsFrom 0 (min d.toNat book.asks.length)) ∧
    (d = 0 →
      ((createOrderbookSnapshots ts mid tid book d).filter
          (fun r => r.side == "bid")).map (fun r => r.level) =
        levelsFrom 0 book.bids.length ∧
      ((createOrderbookSnapshots ts mid tid book d).filter
          (fun r => r.side == "ask")).map (fun r => r.level) =
        levelsFrom 0 book.asks.length) := by
  constructor
  · intro hd
    constructor
    · rw [createOrderbookSnapshots]
      simp [if_pos hd, List.filter_append, bookRows_filter_self,
        bookRows_filter_other ts mid tid "ask" "bid" (by decide),
        bookRows_map_level, List.length_take]
    · rw [createOrderbookSnapshots]
      simp [if_pos hd, List.filter_append, bookRows_filter_self,
        bookRows_filter_other ts mid tid "bid" "ask" (by decide),
        bookRows_map_level, List.length_take]
  · intro hd
    subst hd
    constructor
    · rw [createOrderbookSnapshots]
      simp [List.filter_append, bookRows_filter_self,
        bookRows_filter_other ts mid tid "ask" "bid" (by decide),
        bookRows_map_level]
    · rw [createOrderbookSnapshots]
      simp [List.filter_append, bookRows_filter_self,
        bookRows_filter_other ts mid tid "bid" "ask" (by decide),
        bookRows_map_level]

/-- C8 witness: depth 5 against 8 supplied bid levels yields exactly the
five bid-side records at levels 0 through 4. -/
theorem orderbook_depth_spec_witness :
    ((createOrderbookSnapshots dt0 "m" "t" book8 5).filter
        (fun r => r.side == "bid")).map (fun r => r.level) =
      [0, 1, 2, 3, 4] ∧
    ((createOrderbookSnapshots dt0 "m" "t" book8 5).filter
        (fun r => r.side == "ask")).map (fun r => r.level) = [] := by
  have h := (orderbook_depth_spec dt0 "m" "t" book8 5).1 (by decide)
  exact ⟨h.1.trans (by decide), h.2.trans (by decide)⟩

/-- Helper: what a successful `mapExcept` run guarantees — one output per
input, each output produced by `f` from some input element. -/
theorem mapExcept_ok {α β ε : Type} (f : α → Except ε β) :
    ∀ (l : List α) (r : List β), mapExcept f l = Except.ok r →
      r.length = l.length ∧ ∀ b ∈ r, ∃ a ∈ l, f a = Except.ok b := by
  intro l
  induction l with
  | nil =>
    intro r h
    injection h with h
    subst h
    simp
  | cons a as ih =>
    intro r h
    simp only [mapExcept] at h
    cases hfa : f a <;> rw [hfa] at h
    · exact Except.noConfusion h
    · rename_i b0
      cases hrest : mapExcept f as <;> rw [hrest] at h
      · exact Except.noConfusion h
      · rename_i bs
        injection h with h
        subst h
        obtain ⟨hl, hmem⟩ := ih bs hrest
        refine ⟨by simp [hl], ?_⟩
        intro b hb
        rcases List.mem_cons.mp hb with hb | hb
        · exact ⟨a, by simp, by rw [hb]; exact hfa⟩
        · obtain ⟨a2, ha2, hfa2⟩ := hmem b hb
          exact ⟨a2, by simp [ha2], hfa2⟩

/-- Helper: the fields of an event successfully built by
`mkPriceChangeEvent` — it carries the shared market id and the decoded
message-level best bid/ask. -/
theorem mkPriceChangeEvent_ok (ts : PyDateTime) (mid : String)
    (bid ask : BVal) (c : PriceChangeEntry) (e : PriceChangeEvent)
    (h : mkPriceChangeEvent ts mid bid ask c = Except.ok e) :
    e.market_id = mid ∧ e.timestamp = ts ∧ e.token_id = c.asset_id ∧
    e.side = c.side ∧ decodeBest bid = Except.ok e.best_bid ∧
    decodeBest ask = Except.ok e.best_ask := by
  simp only [mkPriceChangeEvent] at h
  cases hp : pyFloat c.price <;> rw [hp] at h
  · exact Except.noConfusion h
  · cases hs : pyFloat c.size <;> rw [hs] at h
    · exact Except.noConfusion h
    · cases hb : decodeBest bid <;> rw [hb] at h
      · exact Except.noConfusion h
      · cases ha : decodeBest ask <;> rw [ha] at h
        · exact Except.noConfusion h
        · injection h with h
          subst h
          exact ⟨rfl, rfl, rfl, rfl, rfl, rfl⟩

/-- C7: a successful decode of a `price_change` message yields exactly
one PriceChangeEvent per nested change entry, each carrying the
message-level market id and the (shared) decoded message-level best
bid/ask. -/
theorem handle_price_change_count_spec (now : PyDateTime) (msg : PCMessage)
    (evs : List PriceChangeEvent)
    (h : handlePriceChange now msg = Except.ok evs) :
    evs.length = msg.price_changes.length ∧
    ∀ e ∈ evs, e.market_id = msg.market ∧
      decodeBest msg.best_bid = Except.ok e.best_bid ∧
      decodeBest msg.best_ask = Except.ok e.best_ask := by
  obtain ⟨hl, hmem⟩ := mapExcept_ok _ _ _ h
  refine ⟨hl, ?_⟩
  intro e he
  obtain ⟨c, _, hc⟩ := hmem e he
  obtain ⟨h1, _, _, _, h5, h6⟩ := mkPriceChangeEvent_ok _ _ _ _ _ _ hc
  exact ⟨h1, by rw [← h5], by rw [← h6]⟩

/-- C7 witness: a message with two nested change entries yields exactly
two events, both carrying the message-level market id and decoded best
bid/ask. -/
theorem handle_price_change_count_spec_witness :
    ([ev7a, ev7b] : List PriceChangeEvent).length = 2 ∧
    ev7a.market_id = "mkt7" ∧ ev7b.market_id = "mkt7" ∧
    ev7a.best_bid = some (Rat.divInt 1 2) ∧
    ev7a.best_ask = some (Rat.divInt 11 20) := by
  have h := handle_price_change_count_spec dt0 msg7 [ev7a, ev7b] (by decide)
  have ha := h.2 ev7a (by decide)
  have hb := h.2 ev7b (by decide)
  exact ⟨h.1.trans (by decide), ha.1, hb.1, by decide, by decide⟩

/-- Helper: what a successful best-bid/ask decode guarantees — `None`
exactly on falsy input, and the truthy string "0" decodes to 0.0. -/
theorem decodeBest_ok (v : BVal) (ob : Option ℚ)
    (h : decodeBest v = Except.ok ob) :
    (pyTruthy v = false → ob = none) ∧
    (ob ≠ none → pyTruthy v = true) ∧
    (v = BVal.str "0" → ob = some 0) := by
  unfold decodeBest at h
  by_cases ht : pyTruthy v = true
  · rw [if_pos ht] at h
    cases hf : pyFloat v <;> rw [hf] at h
    · exact Except.noConfusion h
    · rename_i q
      injection h with h
      subst h
      refine ⟨?_, fun _ => ht, ?_⟩
      · intro hc
        rw [ht] at hc
        cases hc
      · intro hv
        rw [hv] at hf
        have h00 : pyFloat (BVal.str "0") = some 0 := by decide
        rw [h00] at hf
        injection hf with hf
        rw [hf]
  · rw [if_neg ht] at h
    injection h with h
    subst h
    refine ⟨fun _ => rfl, fun hc => absurd rfl hc, fun hv => ?_⟩
    have : pyTruthy v = true := by rw [hv]; decide
    exact absurd this ht

/-- C10: in a successfully decoded `price_change` message, every emitted
event's best-bid (resp. best-ask) field is `None` whenever the
message-level field is falsy (the number 0, `None`, or the empty
string), is non-`None` only when the message-level field is truthy, and
the truthy string "0" yields the value 0.0 rather than `None`. -/
theorem best_bid_truthiness_spec (now : PyDateTime) (msg : PCMessage)
    (evs : List PriceChangeEvent) (e : PriceChangeEvent)
    (h : handlePriceChange now msg = Except.ok evs) (he : e ∈ evs) :
    (pyTruthy msg.best_bid = false → e.best_bid = none) ∧
    (e.best_bid ≠ none → pyTruthy msg.best_bid = true) ∧
    (msg.best_bid = BVal.str "0" → e.best_bid = some 0) ∧
    (pyTruthy msg.best_ask = false → e.best_ask = none) ∧
    (e.best_ask ≠ none → pyTruthy msg.best_ask = true) ∧
    (msg.best_ask = BVal.str "0" → e.best_ask = some 0) := by
  obtain ⟨_, hmem⟩ := mapExcept_ok _ _ _ h
  obtain ⟨c, _, hc⟩ := hmem e he
  obtain ⟨_, _, _, _, h5, h6⟩ := mkPriceChangeEvent_ok _ _ _ _ _ _ hc
  obtain ⟨b1, b2, b3⟩ := decodeBest_ok _ _ h5
  obtain ⟨a1, a2, a3⟩ := decodeBest_ok _ _ h6
  exact ⟨b1, b2, b3, a1, a2, a3⟩

/-- C10 witness: a message-level best bid of the falsy number 0 yields
`None`, while a best ask of the truthy string "0" yields 0.0. -/
theorem best_bid_truthiness_spec_witness :
    ev10.best_bid = none ∧ ev10.best_ask = some 0 := by
  have h := best_bid_truthiness_spec dt0 msg10 [ev10] ev10 (by decide) (by decide)
  exact ⟨h.1 (by decide), h.2.2.2.2.2 (by decide)⟩
